import Mathlib

/-!
Verification development for the HootieChat language-tutoring server
(`server_py/`).  The Python sources are shallowly embedded: pure fragments
become Lean functions, the in-memory session store becomes explicit state
passing, calls to the external completion / speech services become explicit
oracle parameters (`Except Unit _` models a call that can raise), and
floating-point scores are modelled by exact rationals.
-/

namespace HootieChat

/-- Python truthiness of an optional string value (`None` and `""` are falsy). -/
def truthy : Option String → Bool
  | none => false
  | some s => !(s == "")

/-- Python `a or b` on optional string values: `a` when truthy, else `b`. -/
def pyOr (a b : Option String) : Option String :=
  if truthy a then a else b

/-- Python `str.lower()`, modelled characterwise on the string's data
(structural recursion, so concrete inputs evaluate). -/
def pyLower (s : String) : String :=
  String.mk (s.data.map Char.toLower)

/-- Python `str.strip()`: drop whitespace from both ends, modelled on the
string's character list. -/
def pyStrip (s : String) : String :=
  String.mk
    (((s.data.dropWhile Char.isWhitespace).reverse.dropWhile
      Char.isWhitespace).reverse)

/-- Python `pat in s` (substring containment), via `String.splitOn`:
the pattern occurs in `s` iff splitting on it yields more than one piece. -/
def containsSub (s pat : String) : Bool :=
  (s.splitOn pat).length ≥ 2

/-- A stored quiz result, as appended by `save_quiz_result` in
`server_py/tools.py` (only the fields the embedded logic reads). -/
structure QuizResult where
  test_type : String
  score : ℚ
  deriving Repr, DecidableEq

/-- A session profile (`SESSIONS[sid]["profile"]` in `server_py/tools.py`);
each recognized attribute is optional.  `spanish_level` is kept for the
backward-compatibility read in `get_user_level`. -/
structure Profile where
  name : Option String := none
  age : Option String := none
  interests : Option String := none
  target_language : Option String := none
  language_level : Option String := none
  spanish_level : Option String := none
  deriving Repr, DecidableEq

/-- Body of `normalize_cefr_level` on the already lowercased/stripped input
(`server_py/quiz_generators/utils.py`): pass exact CEFR codes through
(uppercased), map colloquial terms by substring match, default to `"A1"`. -/
def normCore (l : String) : String :=
  if l == "a1" then "A1"
  else if l == "a2" then "A2"
  else if l == "b1" then "B1"
  else if l == "b2" then "B2"
  else if l == "c1" then "C1"
  else if l == "c2" then "C2"
  else if ["beginner", "basico", "básico", "basic", "start", "just starting"].any
      (fun w => containsSub l w) then "A1"
  else if ["intermediate", "intermedio", "medio", "middle"].any
      (fun w => containsSub l w) then "B1"
  else if ["advanced", "avanzado", "high", "fluent", "fluency"].any
      (fun w => containsSub l w) then "B2"
  else if ["expert", "native", "proficient", "nativo"].any
      (fun w => containsSub l w) then "C1"
  else "A1"

/-- `normalize_cefr_level` from `server_py/quiz_generators/utils.py`:
empty input defaults to `"A1"`, otherwise the input is lowercased, stripped
and classified by `normCore`. -/
def normalize_cefr_level (level_input : String) : String :=
  if level_input == "" then "A1"
  else normCore (pyStrip (pyLower level_input))

/-- `level_order` in `get_user_level`. -/
def level_order : List String := ["A1", "A2", "B1", "B2", "C1", "C2"]

/-- `level_expectations` in `get_user_level`: per-level expected score band,
with Python's `dict.get` default `(0.3, 0.7)`. -/
def level_expectations (l : String) : ℚ × ℚ :=
  if l == "A1" then (3/10, 3/5)
  else if l == "A2" then (2/5, 7/10)
  else if l == "B1" then (1/2, 4/5)
  else if l == "B2" then (3/5, 9/10)
  else if l == "C1" then (3/4, 19/20)
  else if l == "C2" then (17/20, 1)
  else (3/10, 7/10)

/-- Mean of the recorded scores (`sum(qr.get("score", 0) ...) / len(...)`). -/
def avgScore (qs : List QuizResult) : ℚ :=
  (qs.map (·.score)).sum / qs.length

/-- `current_idx` in `get_user_level`:
`level_order.index(normalized) if normalized in level_order else 0`. -/
def levelIdx (l : String) : Nat :=
  if level_order.contains l then level_order.indexOf l else 0

/-- The quiz-performance adjustment inside `get_user_level`: step down one
level when the mean is more than 0.2 below the expected band, step up one
level when more than 0.15 above it (the `current_idx` guards make the ends
of `level_order` fall through to the stated level). -/
def adjust_by_quiz (normalized : String) (avg : ℚ) : String :=
  if avg < (level_expectations normalized).1 - 1/5 then
    if levelIdx normalized > 0 then level_order.getD (levelIdx normalized - 1) "A1"
    else normalized
  else if avg > (level_expectations normalized).2 + 3/20 then
    if levelIdx normalized < 5 then level_order.getD (levelIdx normalized + 1) "A1"
    else normalized
  else normalized

/-- The mean-score bucketing fallback of `get_user_level` (no stated level,
non-empty quiz history). -/
def bucket_by_quiz (avg : ℚ) : String :=
  if avg ≥ 9/10 then "C2"
  else if avg ≥ 17/20 then "C1"
  else if avg ≥ 7/10 then "B2"
  else if avg ≥ 3/5 then "B1"
  else if avg ≥ 1/2 then "A2"
  else "A1"

/-- `stated_level` in `get_user_level`:
`profile.get("language_level") or profile.get("spanish_level")`. -/
def stated_level (profile : Profile) : Option String :=
  pyOr profile.language_level profile.spanish_level

/-- `get_user_level` from `server_py/quiz_generators/utils.py`:
stated level (profile `language_level`, falling back to `spanish_level`)
is normalized and nudged by at most one level against the expected band;
without a stated level the mean quiz score is bucketed; default `"A1"`. -/
def get_user_level (profile : Profile) (quiz_results : List QuizResult) : String :=
  if truthy (stated_level profile) then
    if quiz_results.isEmpty then
      normalize_cefr_level ((stated_level profile).getD "")
    else
      adjust_by_quiz (normalize_cefr_level ((stated_level profile).getD ""))
        (avgScore quiz_results)
  else if quiz_results.isEmpty then "A1"
  else bucket_by_quiz (avgScore quiz_results)

/-! Spec-side mirror of the Difficulty/Level Resolver, following the words of
the claim (one-step nudging with explicit floor/ceiling tables, mean-score
bucketing).  Compared against `get_user_level` by the refinement theorem. -/

/-- Step a CEFR code down exactly one level, flooring at A1 (spec wording). -/
def stepDownSpec (l : String) : String :=
  if l == "A1" then "A1"
  else if l == "A2" then "A1"
  else if l == "B1" then "A2"
  else if l == "B2" then "B1"
  else if l == "C1" then "B2"
  else if l == "C2" then "C1"
  else "A1"

/-- Step a CEFR code up exactly one level, capping at C2 (spec wording). -/
def stepUpSpec (l : String) : String :=
  if l == "A1" then "A2"
  else if l == "A2" then "B1"
  else if l == "B1" then "B2"
  else if l == "B2" then "C1"
  else if l == "C1" then "C2"
  else if l == "C2" then "C2"
  else "A1"

/-- Mean-score bucketing used when no stated level exists (spec wording). -/
def bucketSpec (avg : ℚ) : String :=
  if avg ≥ 9/10 then "C2"
  else if avg ≥ 17/20 then "C1"
  else if avg ≥ 7/10 then "B2"
  else if avg ≥ 3/5 then "B1"
  else if avg ≥ 1/2 then "A2"
  else "A1"

/-- The spec's per-level expected score band (§4.2 of the spec). -/
def specBandRange (l : String) : ℚ × ℚ :=
  if l == "A1" then (3/10, 3/5)
  else if l == "A2" then (2/5, 7/10)
  else if l == "B1" then (1/2, 4/5)
  else if l == "B2" then (3/5, 9/10)
  else if l == "C1" then (3/4, 19/20)
  else if l == "C2" then (17/20, 1)
  else (3/10, 7/10)

/-- The band adjustment exactly as the claim states it: step down one level
when the mean is more than 0.20 below the band's lower bound, step up one
level when more than 0.15 above its upper bound, otherwise keep the level. -/
def adjustSpec (l : String) (m : ℚ) : String :=
  if m < (specBandRange l).1 - 1/5 then stepDownSpec l
  else if m > (specBandRange l).2 + 3/20 then stepUpSpec l
  else l

/-- The Difficulty/Level Resolver exactly as the claim states it:
normalize the stated level; with quiz history, apply the one-step band
adjustment to it; with no stated level bucket the mean; empty everything
resolves to A1. -/
def resolveLevelSpec (profile : Profile) (quiz_results : List QuizResult) : String :=
  if truthy (stated_level profile) then
    if quiz_results.isEmpty then
      normalize_cefr_level ((stated_level profile).getD "")
    else
      adjustSpec (normalize_cefr_level ((stated_level profile).getD ""))
        (avgScore quiz_results)
  else if quiz_results.isEmpty then "A1"
  else bucketSpec (avgScore quiz_results)

/-! ## Profile Store and the tool-call dispatch of the orchestrator -/

/-- A merge patch for `upsert_profile` (`server_py/tools.py`): fields absent
from the patch (`none`) leave the stored value untouched. -/
structure Patch where
  name : Option String := none
  age : Option String := none
  interests : Option String := none
  target_language : Option String := none
  language_level : Option String := none
  spanish_level : Option String := none
  deriving Repr, DecidableEq

/-- Merge of one optional field: a key present in the patch wins
(`{**profile, **patch}` semantics). -/
def mergeField (old new : Option String) : Option String :=
  match new with
  | some v => some v
  | none => old

/-- `upsert_profile` from `server_py/tools.py`: plain merge-patch write,
last-write-wins per key, no validation of any field. -/
def upsert_profile (p : Profile) (patch : Patch) : Profile :=
  { name := mergeField p.name patch.name
    age := mergeField p.age patch.age
    interests := mergeField p.interests patch.interests
    target_language := mergeField p.target_language patch.target_language
    language_level := mergeField p.language_level patch.language_level
    spanish_level := mergeField p.spanish_level patch.spanish_level }

/-- `SUPPORTED_LANGUAGES` from `server_py/agent.py` (lowercased alias →
canonical name). -/
def SUPPORTED_LANGUAGES : List (String × String) :=
  [("english", "English"),
   ("mandarin chinese", "Mandarin Chinese"),
   ("chinese", "Mandarin Chinese"),
   ("mandarin", "Mandarin Chinese"),
   ("hindi", "Hindi"),
   ("spanish", "Spanish"),
   ("french", "French"),
   ("modern standard arabic", "Modern Standard Arabic"),
   ("arabic", "Modern Standard Arabic"),
   ("msa", "Modern Standard Arabic"),
   ("bengali", "Bengali"),
   ("portuguese", "Portuguese"),
   ("russian", "Russian"),
   ("urdu", "Urdu")]

/-- `SUPPORTED_LANGUAGES_LIST` from `server_py/agent.py`. -/
def SUPPORTED_LANGUAGES_LIST : List String :=
  ["English", "Mandarin Chinese", "Hindi", "Spanish", "French",
   "Modern Standard Arabic", "Bengali", "Portuguese", "Russian", "Urdu"]

/-- `normalize_language` from `server_py/agent.py`: lowercase, strip, look up
the supported-language table; `none` for empty or unsupported input. -/
def normalize_language (language : String) : Option String :=
  if language == "" then none
  else (SUPPORTED_LANGUAGES.lookup (pyStrip (pyLower language)))

/-- The corrective tool-result message built in `tutor_reply`
(`server_py/agent.py`) when an unsupported `target_language` is requested. -/
def unsupportedLanguageMsg (target_lang : String) : String :=
  "ERROR: The language \x27" ++ target_lang ++ "\x27 is not supported. " ++
  "Supported languages are: " ++ String.intercalate ", " SUPPORTED_LANGUAGES_LIST ++
  ". Please apologize to the user and ask them to choose one of the supported " ++
  "languages. Do NOT save this language to the profile."

/-- Outcome of dispatching one `upsert_profile` tool call in `tutor_reply`:
the resulting stored profile, whether the store write was executed, and the
corrective message appended to the tool-result channel when rejected. -/
structure DispatchResult where
  profile : Profile
  executed : Bool
  errorMessage : Option String
  deriving Repr, DecidableEq

/-- The `upsert_profile` branch of the tool-call loop in `tutor_reply`
(`server_py/agent.py`, lines 454-476): a patch carrying a `target_language`
is normalized when supported, or rejected outright (tool not executed, a
corrective `ToolMessage` appended) when not; other patches pass through. -/
def dispatch_upsert_profile (p : Profile) (patch : Patch) : DispatchResult :=
  match patch.target_language with
  | some tl =>
    match normalize_language tl with
    | some normalized =>
      { profile := upsert_profile p { patch with target_language := some normalized }
        executed := true
        errorMessage := none }
    | none =>
      { profile := p
        executed := false
        errorMessage := some (unsupportedLanguageMsg tl) }
  | none =>
    { profile := upsert_profile p patch
      executed := true
      errorMessage := none }

/-! ## Exercise-type sequencing policy and the per-turn state machine -/

/-- `TEST_TYPES` from `server_py/agent.py`. -/
def TEST_TYPES : List String :=
  ["image_detection", "unit_completion", "keyword_match",
   "pronunciation", "podcast", "reading"]

/-- `random.choice` modelled with an explicit seed: pick the
`seed mod length`-th element (any list element is reachable). -/
def pyChoice (l : List String) (seed : Nat) : String :=
  l.getD (seed % l.length) "image_detection"

/-- The weighted candidate list built from `test_preferences` in `run_step`:
each type is repeated `weight` times (`dict.get` default 1). -/
def weightedTypes (prefs : List (String × Nat)) : List String :=
  TEST_TYPES.flatMap (fun t => List.replicate ((prefs.lookup t).getD 1) t)

/-- `can_start_quizzes`: the quiz-start gate — both `target_language` and
`language_level` truthy in the profile. -/
def canStartQuizzes (p : Profile) : Bool :=
  truthy p.target_language && truthy p.language_level

/-- The exercise-type selection of `run_step` (`server_py/agent.py`,
lines 709-748), evaluated only when the gate passes: explicit request first;
once every kind has a result, weighted/random choice; otherwise the first
kind of `TEST_TYPES` without a prior result. -/
def selectQuizType (requested : Option String) (completed : List String)
    (prefs : List (String × Nat)) (seed : Nat) : String :=
  let allDone := TEST_TYPES.all (fun t => completed.contains t)
  if truthy requested && TEST_TYPES.contains (requested.getD "") then
    requested.getD ""
  else if allDone then
    if !prefs.isEmpty then
      let wt := weightedTypes prefs
      if !wt.isEmpty then pyChoice wt seed else pyChoice TEST_TYPES seed
    else pyChoice TEST_TYPES seed
  else
    match TEST_TYPES.find? (fun t => !(completed.contains t)) with
    | some t => t
    | none => TEST_TYPES.getD 0 ""

/-- The quiz-feedback auto-continuation selection of `run_step`
(`server_py/agent.py`, lines 850-874): next uncompleted kind in order, or a
random kind excluding the immediately previous one. -/
def selectNextAfterFeedback (lastType : String) (completed : List String)
    (seed : Nat) : String :=
  let allDone := TEST_TYPES.all (fun t => completed.contains t)
  let avail := (TEST_TYPES.filter (fun t => t ≠ lastType))
  let avail := if avail.isEmpty then TEST_TYPES else avail
  if allDone then pyChoice avail seed
  else
    match TEST_TYPES.find? (fun t => !(completed.contains t)) with
    | some t => t
    | none => pyChoice avail seed

/-- `missing_info` as computed in `run_step`: the profile attributes that are
not truthy, in the order the code checks them. -/
def missingInfo (p : Profile) : List String :=
  (if truthy p.name then [] else ["name"]) ++
  (if truthy p.age then [] else ["age"]) ++
  (if truthy p.interests then [] else ["interests"]) ++
  (if truthy p.target_language then [] else ["target_language"]) ++
  (if truthy p.language_level then [] else ["language_level"])

/-- Transient inputs of one `run_step` call.  `profile0` is the stored
profile when the turn starts; `profileAfter` is the stored profile after the
final-reply completion call (tool calls fired during generation may have
updated it); intent flags come from the intent-detection completion call;
`seed` resolves the `random.choice` draws. -/
structure RunInput where
  isFirstTurn : Bool
  userEmpty : Bool
  profile0 : Profile
  profileAfter : Profile
  quizResults : List QuizResult
  isHelpRequest : Bool
  isLanguageQuestion : Bool
  requestedTestType : Option String
  prefs : List (String × Nat)
  seed : Nat
  deriving Repr

/-- What one `run_step` call returns, as far as exercise sequencing goes:
the `test_type` of the reply JSON, and the value of the `current_profile`
variable at the point the returned selection was made. -/
structure RunResult where
  testType : Option String
  profileAtSelection : Profile
  deriving Repr, DecidableEq

/-- `selected_test_type` as first computed in `run_step` (lines 703-748):
`none` while the gate fails, otherwise the sequencing-policy choice. -/
def selectedInitial (i : RunInput) : Option String :=
  if canStartQuizzes i.profile0 then
    some (selectQuizType i.requestedTestType (i.quizResults.map (·.test_type))
      i.prefs i.seed)
  else none

/-- `target_lang_just_set or level_just_set` in the post-reply profile
refresh of `run_step`: a gate field that was not truthy before the
final-reply completion call became truthy through a tool call. -/
def profileJustSet (i : RunInput) : Bool :=
  (!truthy i.profile0.target_language && truthy i.profileAfter.target_language) ||
  (!truthy i.profile0.language_level && truthy i.profileAfter.language_level)

/-- First-turn branch of `run_step` (lines 520-595): the gate is re-checked
on the profile refreshed after the LLM call; when it passes, the first kind
of `TEST_TYPES` is served, otherwise the welcome reply carries no quiz. -/
def firstTurnBranch (i : RunInput) : RunResult :=
  if canStartQuizzes i.profileAfter then
    { testType := some (TEST_TYPES.getD 0 ""), profileAtSelection := i.profileAfter }
  else
    { testType := none, profileAtSelection := i.profileAfter }

/-- Quiz-feedback branch of `run_step` (lines 828-1006): feedback, then
immediate auto-continuation with the next selection when the gate passes. -/
def feedbackBranch (i : RunInput) (last : QuizResult) : RunResult :=
  if canStartQuizzes i.profile0 then
    { testType := some (selectNextAfterFeedback last.test_type
        (i.quizResults.map (·.test_type)) i.seed)
      profileAtSelection := i.profile0 }
  else
    { testType := none, profileAtSelection := i.profile0 }

/-- Help / language-question / missing-info branch of `run_step`
(lines 1007-1107): no quiz, unless a tool call fired during the reply just
made the gate pass, in which case the turn pivots to the first kind. -/
def helpBranch (i : RunInput) : RunResult :=
  if profileJustSet i then
    if canStartQuizzes i.profileAfter && (selectedInitial i).isNone then
      { testType := some (TEST_TYPES.getD 0 ""), profileAtSelection := i.profileAfter }
    else
      { testType := none, profileAtSelection := i.profileAfter }
  else
    { testType := none, profileAtSelection := i.profile0 }

/-- Regular-turn branch of `run_step` (lines 1108-1204): serve the initial
selection when the gate passes; after the reply, refresh the profile and
pivot to the first kind when the gate just started passing. -/
def regularBranch (i : RunInput) : RunResult :=
  if profileJustSet i then
    if canStartQuizzes i.profileAfter && !i.isHelpRequest then
      { testType :=
          if canStartQuizzes i.profileAfter && (selectedInitial i).isNone then
            some (TEST_TYPES.getD 0 "")
          else selectedInitial i
        profileAtSelection := i.profileAfter }
    else
      { testType := none, profileAtSelection := i.profileAfter }
  else
    if canStartQuizzes i.profile0 && !i.isHelpRequest then
      { testType := selectedInitial i, profileAtSelection := i.profile0 }
    else
      { testType := none, profileAtSelection := i.profile0 }

/-- The turn-orchestration state machine of `run_step`
(`server_py/agent.py`, lines 502-1204), restricted to the data the claims
are about (which `test_type` the reply carries, against which profile).
Paths: first turn; quiz-feedback with auto-continuation; help / language
question / missing-critical-info with post-tool-call pivot; regular turn
with post-tool-call refresh. -/
def run_step (i : RunInput) : RunResult :=
  if i.isFirstTurn then firstTurnBranch i
  else
    match (if i.userEmpty && !i.quizResults.isEmpty then i.quizResults.getLast? else none) with
    | some last => feedbackBranch i last
    | none =>
      if i.isHelpRequest || i.isLanguageQuestion ||
          (!(missingInfo i.profile0).isEmpty && !truthy i.profile0.target_language) then
        helpBranch i
      else
        regularBranch i

/-- Completed-set evolution of the claim's round-robin experiment: each
selected kind is recorded as completed before the next selection
(no explicit request, no preferences). -/
def roundRobinCompleted : Nat → List String
  | 0 => []
  | n + 1 =>
    let prev := roundRobinCompleted n
    prev ++ [selectQuizType none prev [] 0]

/-! ## Difficulty banding in the exercise generators -/

/-- The `level_map` of `generate_reading`
(`server_py/quiz_generators/reading.py`): reading keeps the resolved level
unmodified (`dict.get` default `"A1"`). -/
def reading_level_map (l : String) : String :=
  if l == "A1" then "A1"
  else if l == "A2" then "A2"
  else if l == "B1" then "B1"
  else if l == "B2" then "B2"
  else if l == "C1" then "C1"
  else if l == "C2" then "C2"
  else "A1"

/-- The `level_map` shared verbatim by `generate_keyword_match`,
`generate_pronunciation`, `generate_unit_completion`,
`generate_image_detection` and `generate_podcast`
(`server_py/quiz_generators/*.py`): one notch above the resolved level
(`dict.get` default `"A1-A2"`). -/
def band_level_map (l : String) : String :=
  if l == "A1" then "A1-A2"
  else if l == "A2" then "A2-B1"
  else if l == "B1" then "B1-B2"
  else if l == "B2" then "B2-C1"
  else if l == "C1" then "C1-C2"
  else if l == "C2" then "C2"
  else "A1-A2"

/-- The (`difficulty`, `original_level`) pair of the payload returned by
`generate_reading`. -/
def generate_reading_meta (p : Profile) (qs : List QuizResult) : String × String :=
  (reading_level_map (get_user_level p qs), get_user_level p qs)

/-- The (`difficulty`, `original_level`) pair of the payload returned by
`generate_keyword_match`. -/
def generate_keyword_match_meta (p : Profile) (qs : List QuizResult) : String × String :=
  (band_level_map (get_user_level p qs), get_user_level p qs)

/-- The (`difficulty`, `original_level`) pair of the payload returned by
`generate_pronunciation`. -/
def generate_pronunciation_meta (p : Profile) (qs : List QuizResult) : String × String :=
  (band_level_map (get_user_level p qs), get_user_level p qs)

/-- The (`difficulty`, `original_level`) pair of the payload returned by
`generate_unit_completion`. -/
def generate_unit_completion_meta (p : Profile) (qs : List QuizResult) : String × String :=
  (band_level_map (get_user_level p qs), get_user_level p qs)

/-- The (`difficulty`, `original_level`) pair of the payload returned by
`generate_image_detection`. -/
def generate_image_detection_meta (p : Profile) (qs : List QuizResult) : String × String :=
  (band_level_map (get_user_level p qs), get_user_level p qs)

/-- The (`difficulty`, `original_level`) pair of the payload returned by
`generate_podcast`. -/
def generate_podcast_meta (p : Profile) (qs : List QuizResult) : String × String :=
  (band_level_map (get_user_level p qs), get_user_level p qs)

/-- The band the claim says non-reading generators must request: the target
band one notch above the resolved level. -/
def specBandAbove (l : String) : String :=
  if l == "A1" then "A1-A2"
  else if l == "A2" then "A2-B1"
  else if l == "B1" then "B1-B2"
  else if l == "B2" then "B2-C1"
  else if l == "C1" then "C1-C2"
  else "C2"

/-! ## Exercise validators -/

/-- One word pair of the keyword-match quiz (the `spanish` key carries the
target-language word, kept for frontend compatibility). -/
structure Pair where
  spanish : String
  english : String
  deriving Repr, DecidableEq

/-- Result record of `validate_keyword_match`. -/
structure KeywordResult where
  correct : Bool
  score : ℚ
  total : Nat
  correct_count : Nat
  deriving Repr, DecidableEq

/-- The lookup in the `correct_map` dict built by `validate_keyword_match`:
keys are lowercased/stripped target-language words, later pairs overwrite
earlier ones, missing keys give `""` (`dict.get` default). -/
def correctEnglishFor (original_pairs : List Pair) (key : String) : String :=
  ((original_pairs.reverse.find? (fun pr => pyStrip (pyLower pr.spanish) == key)).map
    (fun pr => pyStrip (pyLower pr.english))).getD ""

/-- The per-match check of `validate_keyword_match`:
`(english == correct_english) if correct_english else False`. -/
def keywordIsCorrect (original_pairs : List Pair) (m : Pair) : Bool :=
  if correctEnglishFor original_pairs (pyStrip (pyLower m.spanish)) == "" then
    false
  else
    pyStrip (pyLower m.english) ==
      correctEnglishFor original_pairs (pyStrip (pyLower m.spanish))

/-- `validate_keyword_match` from
`server_py/quiz_generators/keyword_match.py`: case-insensitive pairwise
check against the pinned pairs; `score = correct_count / total`
(0.0 when no matches were submitted or no quiz is pinned). -/
def validate_keyword_match (original_pairs : List Pair) (match_list : List Pair) :
    KeywordResult :=
  if original_pairs.isEmpty then
    { correct := false, score := 0, total := 0, correct_count := 0 }
  else
    { correct :=
        match_list.countP (keywordIsCorrect original_pairs) == match_list.length
      score :=
        if match_list.length > 0 then
          (match_list.countP (keywordIsCorrect original_pairs) : ℚ) /
            match_list.length
        else 0
      total := match_list.length
      correct_count := match_list.countP (keywordIsCorrect original_pairs) }

/-- Parsed JSON of the semantic-equivalence completion reply (the `.get`
defaults of `validate_podcast` / `validate_image_detection`). -/
structure SemJson where
  semantically_equivalent : Bool := false
  score : ℚ := 0
  reason : String := ""
  deriving Repr, DecidableEq

/-- Parsed JSON of the fit-check completion reply of
`validate_unit_completion`. -/
structure UnitJson where
  grammatically_correct : Bool := false
  contextually_makes_sense : Bool := false
  score : ℚ := 0
  reason : String := ""
  deriving Repr, DecidableEq

/-- Result record shared by the semantic validators. -/
structure ValResult where
  correct : Bool
  score : ℚ
  feedback : String
  deriving Repr, DecidableEq

/-- Positive feedback line of the semantic validators. -/
def goodFeedback (score : ℚ) (reason : String) : String :=
  if score ≥ 19/20 then "Correct! Well done."
  else "Good! " ++ (if reason == "" then "Answer accepted." else reason)

/-- Negative feedback line of the semantic validators. -/
def wrongFeedback (correct_answer reason : String) : String :=
  "The correct answer is \x27" ++ correct_answer ++ "\x27. " ++
  (if reason == "" then "Keep practicing!" else reason)

/-- `validate_podcast` from `server_py/quiz_generators/podcast.py`.
`llmOut` is the semantic-equivalence completion call: `.error` covers both a
raised completion error and unparseable output (caught by the `try` block,
which degrades to the substring literal-match fallback). -/
def validate_podcast (user_answer correct_answer : String)
    (llmOut : Except Unit SemJson) : ValResult :=
  let u := pyStrip user_answer
  let c := pyStrip correct_answer
  if pyLower u == pyLower c then
    { correct := true, score := 1, feedback := "Correct! Well done." }
  else
    match llmOut with
    | .ok r =>
      let score := max 0 (min 1 r.score)
      if r.semantically_equivalent || score ≥ 4/5 then
        { correct := true, score := score, feedback := goodFeedback score r.reason }
      else
        { correct := false, score := score
          feedback := wrongFeedback correct_answer r.reason }
    | .error _ =>
      if containsSub (pyLower u) (pyLower c) || containsSub (pyLower c) (pyLower u) then
        { correct := false, score := 1/2
          feedback := "Close, but not exact. The correct answer is \x27" ++
            correct_answer ++ "\x27." }
      else
        { correct := false, score := 0
          feedback := "The correct answer is \x27" ++ correct_answer ++
            "\x27. Keep practicing!" }

/-- `validate_image_detection` from
`server_py/quiz_generators/image_detection.py`: same shape as the podcast
validator, but the caught-error fallback returns score 0.0 directly. -/
def validate_image_detection (user_answer correct_word : String)
    (llmOut : Except Unit SemJson) : ValResult :=
  let u := pyStrip user_answer
  let c := pyStrip correct_word
  if pyLower u == pyLower c then
    { correct := true, score := 1, feedback := "Correct! Well done." }
  else
    match llmOut with
    | .ok r =>
      let score := max 0 (min 1 r.score)
      if r.semantically_equivalent || score ≥ 4/5 then
        { correct := true, score := score, feedback := goodFeedback score r.reason }
      else
        { correct := false, score := score
          feedback := wrongFeedback correct_word r.reason }
    | .error _ =>
      { correct := false, score := 0
        feedback := "The correct answer is \x27" ++ correct_word ++
          "\x27. Keep practicing!" }

/-- `validate_unit_completion` from
`server_py/quiz_generators/unit_completion.py`: exact match fast path, then
the grammatical/contextual fit judgment, with the substring literal-match
fallback when the completion call errors or its output fails to parse. -/
def validate_unit_completion (user_answer masked_word : String)
    (llmOut : Except Unit UnitJson) : ValResult :=
  let u := pyStrip user_answer
  let c := pyStrip masked_word
  if pyLower u == pyLower c then
    { correct := true, score := 1, feedback := "Correct! Well done." }
  else
    match llmOut with
    | .ok r =>
      let score := max 0 (min 1 r.score)
      if (r.grammatically_correct && r.contextually_makes_sense) || score ≥ 4/5 then
        { correct := true, score := score, feedback := goodFeedback score r.reason }
      else
        { correct := false, score := score
          feedback := wrongFeedback masked_word r.reason }
    | .error _ =>
      if containsSub (pyLower u) (pyLower c) || containsSub (pyLower c) (pyLower u) then
        { correct := false, score := 1/2
          feedback := "Close, but not exact. The correct answer is \x27" ++
            masked_word ++ "\x27." }
      else
        { correct := false, score := 0
          feedback := "The correct answer is \x27" ++ masked_word ++
            "\x27. Keep practicing!" }

/-- The regex captures pulled out of the reading-rubric completion reply by
`validate_reading` (`none` when a marker is absent or the number fails to
parse — both keep the code's defaults). -/
structure ReadingParse where
  score : Option ℚ := none
  feedback : Option String := none
  explanation : Option String := none
  deriving Repr, DecidableEq

/-- Result record of `validate_reading`: the holistic 1-10 `score` plus its
`normalized_score` (score / 10). -/
structure ReadingResult where
  score : ℚ
  normalized_score : ℚ
  feedback : String
  explanation : String
  deriving Repr, DecidableEq

/-- The response-processing tail of `validate_reading`
(`server_py/quiz_generators/reading.py`, lines 246-275): defaults
(5.0, "Respuesta recibida.", "Evaluación completada."), the parsed score
clamped into [1, 10], `normalized_score = score / 10`. -/
def buildReadingResult (pr : ReadingParse) : ReadingResult :=
  let score := match pr.score with
    | some s => max 1 (min 10 s)
    | none => (5 : ℚ)
  { score := score
    normalized_score := score / 10
    feedback := pr.feedback.getD "Respuesta recibida."
    explanation := pr.explanation.getD "Evaluación completada." }

/-- `validate_reading` from `server_py/quiz_generators/reading.py`: the
rubric completion call is NOT wrapped in a `try` block, so a raised
completion error propagates to the caller; only the parsing of its output
is defaulted. -/
def validate_reading (llmOut : Except Unit ReadingParse) :
    Except Unit ReadingResult :=
  match llmOut with
  | .ok pr => .ok (buildReadingResult pr)
  | .error e => .error e

/-! ## Tool round-trip of the final-reply phase -/

/-- One structured tool-call request returned by the completion service
inside `tutor_reply`. -/
inductive ToolCall where
  | upsertProfile (patch : Patch)
  | other (name : String)
  deriving Repr

/-- A completion-service response: free text plus tool-call requests. -/
structure LlmResponse where
  content : String
  toolCalls : List ToolCall
  deriving Repr

/-- Sequential execution of the tool requests of ONE response
(`tutor_reply`, lines 412-491): `upsert_profile` goes through the
language-validating dispatch; the other tools do not change the profile. -/
def execToolCalls (p : Profile) (tcs : List ToolCall) : Profile :=
  tcs.foldl
    (fun prof tc =>
      match tc with
      | .upsertProfile patch => (dispatch_upsert_profile prof patch).profile
      | .other _ => prof)
    p

/-- Outcome of the final-reply phase of `tutor_reply`: the returned text,
how many completion calls the phase issued, and the stored profile after
the phase. -/
structure TutorOutcome where
  content : String
  completionCalls : Nat
  finalProfile : Profile
  deriving Repr

/-- The final-reply phase of `tutor_reply` (`server_py/agent.py`,
lines 399-497): one completion call (`resp1`); when it requests tool calls,
each is executed sequentially and exactly ONE further completion call
(`resp2`) is issued with the tool results appended; tool-call requests of
`resp2` are never executed. -/
def tutor_reply_phase (p : Profile) (resp1 resp2 : LlmResponse) : TutorOutcome :=
  if resp1.toolCalls.isEmpty then
    { content := resp1.content, completionCalls := 1, finalProfile := p }
  else
    { content := resp2.content
      completionCalls := 2
      finalProfile := execToolCalls p resp1.toolCalls }

/-! ## Shared lemmas -/

set_option maxHeartbeats 1000000 in
/-- Every output of `normCore` is one of the six CEFR codes. -/
theorem normCore_cases (l : String) :
    normCore l = "A1" ∨ normCore l = "A2" ∨ normCore l = "B1" ∨
    normCore l = "B2" ∨ normCore l = "C1" ∨ normCore l = "C2" := by
  unfold normCore
  split_ifs <;>
    first
      | (left; rfl)
      | (right; left; rfl)
      | (right; right; left; rfl)
      | (right; right; right; left; rfl)
      | (right; right; right; right; left; rfl)
      | (right; right; right; right; right; rfl)

/-- Every output of `normalize_cefr_level` is one of the six CEFR codes. -/
theorem normalize_cases (s : String) :
    normalize_cefr_level s = "A1" ∨ normalize_cefr_level s = "A2" ∨
    normalize_cefr_level s = "B1" ∨ normalize_cefr_level s = "B2" ∨
    normalize_cefr_level s = "C1" ∨ normalize_cefr_level s = "C2" := by
  unfold normalize_cefr_level
  split_ifs
  · left; rfl
  · exact normCore_cases _

/-- On the six CEFR codes, the index-based band adjustment of
`get_user_level` agrees with the table-based adjustment of the spec. -/
theorem adjust_eq_adjustSpec (l : String)
    (hl : l = "A1" ∨ l = "A2" ∨ l = "B1" ∨ l = "B2" ∨ l = "C1" ∨ l = "C2")
    (m : ℚ) : adjust_by_quiz l m = adjustSpec l m := by
  rcases hl with h | h | h | h | h | h <;> subst h <;> rfl

/-- The band adjustment maps the six CEFR codes into the six CEFR codes. -/
theorem adjust_cases (l : String)
    (hl : l = "A1" ∨ l = "A2" ∨ l = "B1" ∨ l = "B2" ∨ l = "C1" ∨ l = "C2")
    (m : ℚ) :
    adjust_by_quiz l m = "A1" ∨ adjust_by_quiz l m = "A2" ∨
    adjust_by_quiz l m = "B1" ∨ adjust_by_quiz l m = "B2" ∨
    adjust_by_quiz l m = "C1" ∨ adjust_by_quiz l m = "C2" := by
  rcases hl with h | h | h | h | h | h <;> subst h <;>
    unfold adjust_by_quiz <;> split_ifs <;>
    first
      | (left; rfl)
      | (right; left; rfl)
      | (right; right; left; rfl)
      | (right; right; right; left; rfl)
      | (right; right; right; right; left; rfl)
      | (right; right; right; right; right; rfl)

/-- The mean-score bucketing yields one of the six CEFR codes. -/
theorem bucket_cases (m : ℚ) :
    bucket_by_quiz m = "A1" ∨ bucket_by_quiz m = "A2" ∨
    bucket_by_quiz m = "B1" ∨ bucket_by_quiz m = "B2" ∨
    bucket_by_quiz m = "C1" ∨ bucket_by_quiz m = "C2" := by
  unfold bucket_by_quiz
  split_ifs <;>
    first
      | (left; rfl)
      | (right; left; rfl)
      | (right; right; left; rfl)
      | (right; right; right; left; rfl)
      | (right; right; right; right; left; rfl)
      | (right; right; right; right; right; rfl)

/-- Every output of the Difficulty/Level Resolver is one of the six CEFR
codes. -/
theorem get_user_level_cases (p : Profile) (qs : List QuizResult) :
    get_user_level p qs = "A1" ∨ get_user_level p qs = "A2" ∨
    get_user_level p qs = "B1" ∨ get_user_level p qs = "B2" ∨
    get_user_level p qs = "C1" ∨ get_user_level p qs = "C2" := by
  unfold get_user_level
  split_ifs
  · exact normalize_cases _
  · exact adjust_cases _ (normalize_cases _) _
  · left; rfl
  · exact bucket_cases _

/-! ## Claims -/

/-- Claim C2: `get_user_level` is a pure function of (profile, quiz_results)
that normalizes the stated level to a CEFR code; with quiz history it steps
the stated level down exactly one level (floor A1) when the mean score is
more than 0.20 below the expected band's lower bound, steps up exactly one
level (ceiling C2) when more than 0.15 above the band's upper bound, and
otherwise keeps the stated level; with no stated level it buckets the mean
score (≥0.9→C2, ≥0.85→C1, ≥0.7→B2, ≥0.6→B1, ≥0.5→A2, else A1); an empty
profile with no results resolves to A1. -/
theorem claim_C2_level_resolver :
    (∀ (p : Profile) (qs : List QuizResult),
      get_user_level p qs = resolveLevelSpec p qs) ∧
    (∀ s, normalize_cefr_level s ∈ level_order) ∧
    get_user_level {} [] = "A1" := by
  refine ⟨fun p qs => ?_, fun s => ?_, rfl⟩
  · unfold get_user_level resolveLevelSpec
    split_ifs
    · rfl
    · exact adjust_eq_adjustSpec _ (normalize_cases _) _
    · rfl
    · rfl
  · rcases normalize_cases s with h | h | h | h | h | h <;> rw [h] <;> decide

/-- The mean of a single-element quiz history is its score. -/
theorem avg_single (t : String) (m : ℚ) : avgScore [⟨t, m⟩] = m := by
  simp [avgScore]

/-- The resolver on a "B1" profile with one quiz result reduces to the band
adjustment of "B1" at that score. -/
theorem resolver_B1_single (t : String) (m : ℚ) :
    get_user_level { language_level := some "B1" } [⟨t, m⟩] =
      adjust_by_quiz "B1" m := by
  unfold get_user_level
  rw [avg_single]
  rfl

/-- Claim C3 counterexample: with stated level "B1" and a quiz mean of
exactly 0.95 the resolver returns "B1", not "B2" — the step-up requires the
mean to be strictly greater than 0.8 + 0.15 = 0.95. -/
theorem claim_C3_counterexample :
    get_user_level { language_level := some "B1" } [⟨"unit_completion", 19/20⟩] = "B1" ∧
    get_user_level { language_level := some "B1" } [⟨"unit_completion", 19/20⟩] ≠ "B2" := by
  have h : get_user_level { language_level := some "B1" }
      [⟨"unit_completion", 19/20⟩] = "B1" := by
    rw [resolver_B1_single]
    unfold adjust_by_quiz
    rw [show level_expectations "B1" = (1/2, 4/5) from rfl,
      show levelIdx "B1" = 2 from rfl]
    norm_num
  exact ⟨h, by rw [h]; decide⟩

/-- Claim C3 (amended): for a profile with language_level "B1", a quiz mean
of exactly 0.95 keeps the resolved level at "B1" (the step-up fires only
strictly above 0.95); a mean of 0.96 steps up to "B2". -/
theorem claim_C3_amended_strict_step_up :
    get_user_level { language_level := some "B1" } [⟨"unit_completion", 19/20⟩] = "B1" ∧
    get_user_level { language_level := some "B1" } [⟨"unit_completion", 24/25⟩] = "B2" := by
  constructor
  · rw [resolver_B1_single]
    unfold adjust_by_quiz
    rw [show level_expectations "B1" = (1/2, 4/5) from rfl,
      show levelIdx "B1" = 2 from rfl]
    norm_num
  · rw [resolver_B1_single]
    unfold adjust_by_quiz
    rw [show level_expectations "B1" = (1/2, 4/5) from rfl,
      show levelIdx "B1" = 2 from rfl]
    norm_num
    rfl

/-- Gate property of the first-turn branch. -/
theorem gate_firstTurn (i : RunInput) :
    (firstTurnBranch i).testType.isSome = true →
    canStartQuizzes (firstTurnBranch i).profileAtSelection = true := by
  unfold firstTurnBranch
  split_ifs with h
  · intro _; exact h
  · intro hc; simp at hc

/-- Gate property of the quiz-feedback branch. -/
theorem gate_feedback (i : RunInput) (last : QuizResult) :
    (feedbackBranch i last).testType.isSome = true →
    canStartQuizzes (feedbackBranch i last).profileAtSelection = true := by
  unfold feedbackBranch
  split_ifs with h
  · intro _; exact h
  · intro hc; simp at hc

/-- Gate property of the help / missing-info branch. -/
theorem gate_help (i : RunInput) :
    (helpBranch i).testType.isSome = true →
    canStartQuizzes (helpBranch i).profileAtSelection = true := by
  unfold helpBranch
  split_ifs with h1 h2
  · intro _
    rw [Bool.and_eq_true] at h2
    exact h2.1
  · intro hc; simp at hc
  · intro hc; simp at hc

/-- Gate property of the regular-turn branch. -/
theorem gate_regular (i : RunInput) :
    (regularBranch i).testType.isSome = true →
    canStartQuizzes (regularBranch i).profileAtSelection = true := by
  unfold regularBranch
  split_ifs with h1 h2 h3 h4
  · intro _
    rw [Bool.and_eq_true] at h2
    exact h2.1
  · intro _
    rw [Bool.and_eq_true] at h2
    exact h2.1
  · intro hc; simp at hc
  · intro _
    rw [Bool.and_eq_true] at h4
    exact h4.1
  · intro hc; simp at hc

/-- Claim C1: on every path through `run_step` (first turn, quiz-feedback
auto-continuation, help/missing-info pivot, regular turn), the returned
`test_type` is null unless both `target_language` and `language_level` are
truthy in the session profile at the time of selection. -/
theorem claim_C1_quiz_gate (i : RunInput)
    (h : (run_step i).testType.isSome = true) :
    canStartQuizzes (run_step i).profileAtSelection = true := by
  revert h
  unfold run_step
  split
  · exact gate_firstTurn i
  · split
    · exact gate_feedback i _
    · split
      · exact gate_help i
      · exact gate_regular i

/-- A concrete gated-in regular turn used to witness the gate theorem. -/
def gateWitnessInput : RunInput :=
  { isFirstTurn := false
    userEmpty := false
    profile0 := { target_language := some "Spanish", language_level := some "B1" }
    profileAfter := { target_language := some "Spanish", language_level := some "B1" }
    quizResults := []
    isHelpRequest := false
    isLanguageQuestion := false
    requestedTestType := none
    prefs := []
    seed := 0 }

/-- Witness for claim C1: a regular turn with both gate fields set does
select an exercise type, and the gate theorem applies to it. -/
theorem claim_C1_quiz_gate_witness :
    (run_step gateWitnessInput).testType.isSome = true ∧
    canStartQuizzes (run_step gateWitnessInput).profileAtSelection = true :=
  ⟨by decide, claim_C1_quiz_gate gateWitnessInput (by decide)⟩

/-- Claim C4: starting from an empty `quiz_results`, with each selected kind
immediately recorded as completed, the sequencing policy selects all 6
exercise kinds exactly once — the first six selections are exactly
`TEST_TYPES` in its fixed deterministic order, with no repeats. -/
theorem claim_C4_round_robin :
    roundRobinCompleted 6 = TEST_TYPES ∧ (roundRobinCompleted 6).Nodup := by
  constructor
  · decide
  · decide

/-- Claim C5: for every resolved level, the non-reading generators
(`keyword_match`, `pronunciation`, `unit_completion`, `image_detection`,
`podcast`) set the payload difficulty to the band one notch above the level
(A1→"A1-A2", A2→"A2-B1", B1→"B1-B2", B2→"B2-C1", C1→"C1-C2", C2→"C2"),
the reading generator sets difficulty to exactly the resolved level, and
every payload carries `original_level` equal to the resolved level. -/
theorem claim_C5_difficulty_banding (p : Profile) (qs : List QuizResult) :
    generate_reading_meta p qs = (get_user_level p qs, get_user_level p qs) ∧
    generate_keyword_match_meta p qs =
      (specBandAbove (get_user_level p qs), get_user_level p qs) ∧
    generate_pronunciation_meta p qs =
      (specBandAbove (get_user_level p qs), get_user_level p qs) ∧
    generate_unit_completion_meta p qs =
      (specBandAbove (get_user_level p qs), get_user_level p qs) ∧
    generate_image_detection_meta p qs =
      (specBandAbove (get_user_level p qs), get_user_level p qs) ∧
    generate_podcast_meta p qs =
      (specBandAbove (get_user_level p qs), get_user_level p qs) := by
  rcases get_user_level_cases p qs with h | h | h | h | h | h <;>
    refine ⟨?_, ?_, ?_, ?_, ?_, ?_⟩ <;>
    simp only [generate_reading_meta, generate_keyword_match_meta,
      generate_pronunciation_meta, generate_unit_completion_meta,
      generate_image_detection_meta, generate_podcast_meta, h] <;>
    rfl

/-- Claim C6 counterexample: the store-plus-dispatch path persists a raw
free-text `language_level` — upserting `{"language_level": "beginner"}`
(even through the validating tool-call dispatch) stores the literal string
"beginner", which is not a normalized CEFR code. -/
theorem claim_C6_counterexample :
    (dispatch_upsert_profile {} { language_level := some "beginner" }).profile.language_level
      = some "beginner" ∧
    "beginner" ∉ level_order := by
  constructor
  · rfl
  · decide

/-- Claim C6 (amended): neither the profile-store upsert nor the tool-call
dispatch normalizes or validates `language_level` — the value is persisted
verbatim (merge-patch, last write wins); normalization to one of the six
CEFR codes happens only at read time, where `normalize_cefr_level` always
yields a code in `level_order`. -/
theorem claim_C6_amended_verbatim_level_write (p : Profile) (patch : Patch) (s : String) :
    (upsert_profile p patch).language_level =
      (match patch.language_level with
        | some v => some v
        | none => p.language_level) ∧
    (dispatch_upsert_profile p { language_level := patch.language_level }).profile.language_level =
      (match patch.language_level with
        | some v => some v
        | none => p.language_level) ∧
    normalize_cefr_level s ∈ level_order := by
  refine ⟨rfl, rfl, ?_⟩
  rcases normalize_cases s with h | h | h | h | h | h <;> rw [h] <;> decide

/-- Claim C7: dispatching a profile upsert whose `target_language` is not
supported rejects the write — the stored profile is unchanged, the tool is
not executed, and the corrective instruction is returned through the
tool-result channel. -/
theorem claim_C7_unsupported_language_rejected (p : Profile) (patch : Patch)
    (tl : String) (htl : patch.target_language = some tl)
    (hun : normalize_language tl = none) :
    (dispatch_upsert_profile p patch).profile = p ∧
    (dispatch_upsert_profile p patch).executed = false ∧
    (dispatch_upsert_profile p patch).errorMessage =
      some (unsupportedLanguageMsg tl) := by
  simp only [dispatch_upsert_profile, htl, hun]
  exact ⟨trivial, trivial, trivial⟩

/-- Witness for claim C7: "Klingon" is unsupported, and dispatching it
leaves the stored profile unchanged. -/
theorem claim_C7_unsupported_language_rejected_witness :
    normalize_language "Klingon" = none ∧
    (dispatch_upsert_profile { target_language := some "Spanish" }
      { target_language := some "Klingon" }).profile =
      { target_language := some "Spanish" } :=
  ⟨by decide,
    (claim_C7_unsupported_language_rejected
      { target_language := some "Spanish" }
      { target_language := some "Klingon" } "Klingon" rfl (by decide)).1⟩

/-- Claim C8 counterexample: the reading validator's returned `score` field
is on the 1-10 holistic scale, not in [0,1] — already on unparseable rubric
output it returns the default score 5.0, which exceeds 1. -/
theorem claim_C8_counterexample :
    validate_reading (Except.ok {}) = Except.ok (buildReadingResult {}) ∧
    (buildReadingResult {}).score = 5 ∧
    ¬ ((buildReadingResult {}).score ≤ 1) := by
  refine ⟨rfl, rfl, ?_⟩
  rw [show (buildReadingResult {}).score = 5 from rfl]
  norm_num

/-- Claim C8 (amended): the keyword-match fraction and the scores returned
by the podcast, image-detection and unit-completion validators always lie in
[0, 1]; the reading validator's `score` lies in [1, 10] and only its
`normalized_score` (the value persisted to `quiz_results`) lies in [0, 1]. -/
theorem claim_C8_amended_score_ranges (op ml : List Pair) (u c : String)
    (pr : ReadingParse) :
    (0 ≤ (validate_keyword_match op ml).score ∧
      (validate_keyword_match op ml).score ≤ 1) ∧
    (∀ llm : Except Unit SemJson, 0 ≤ (validate_podcast u c llm).score ∧
      (validate_podcast u c llm).score ≤ 1) ∧
    (∀ llm : Except Unit SemJson, 0 ≤ (validate_image_detection u c llm).score ∧
      (validate_image_detection u c llm).score ≤ 1) ∧
    (∀ llm : Except Unit UnitJson, 0 ≤ (validate_unit_completion u c llm).score ∧
      (validate_unit_completion u c llm).score ≤ 1) ∧
    (1 ≤ (buildReadingResult pr).score ∧ (buildReadingResult pr).score ≤ 10) ∧
    (0 ≤ (buildReadingResult pr).normalized_score ∧
      (buildReadingResult pr).normalized_score ≤ 1) := by
  refine ⟨?_, ?_, ?_, ?_, ?_, ?_⟩
  · simp only [validate_keyword_match]
    split_ifs with h1 h2
    · norm_num
    · constructor
      · positivity
      · rw [div_le_one (by exact_mod_cast h2)]
        exact_mod_cast List.countP_le_length _
    · norm_num
  · intro llm
    rcases llm with e | r <;> simp only [validate_podcast] <;> split_ifs <;> norm_num
  · intro llm
    rcases llm with e | r <;> simp only [validate_image_detection] <;> split_ifs <;> norm_num
  · intro llm
    rcases llm with e | r <;> simp only [validate_unit_completion] <;> split_ifs <;> norm_num
  · cases pr with
    | mk sc fb ex =>
      cases sc
      · simp only [buildReadingResult]
        norm_num
      · simp only [buildReadingResult]
        exact ⟨le_max_left _ _, max_le (by norm_num) (min_le_left _ _)⟩
  · cases pr with
    | mk sc fb ex =>
      cases sc
      · simp only [buildReadingResult]
        norm_num
      · simp only [buildReadingResult]
        constructor
        · exact div_nonneg (le_trans zero_le_one (le_max_left _ _)) (by norm_num)
        · rw [div_le_one (by norm_num)]
          exact max_le (by norm_num) (min_le_left _ _)

/-- Claim C9 counterexample: a completion error inside the reading validator
propagates to its caller (the rubric completion call of `validate_reading`
is not wrapped in a `try` block). -/
theorem claim_C9_counterexample :
    validate_reading (Except.error ()) = Except.error () := rfl

/-- Claim C9 (amended): when the completion call errors or its output fails
to parse, the evolved picture-naming (`image_detection`), listening
(`podcast`) and fill-in-blank (`unit_completion`) validators return the
literal-match fallback result instead of propagating an exception; the
reading validator degrades only on unparseable output (returning the
default-score result), while an error in its completion call propagates. -/
theorem claim_C9_amended_error_degradation (u c : String) (pr : ReadingParse) :
    validate_podcast u c (Except.error ()) =
      (if pyLower (pyStrip u) == pyLower (pyStrip c) then
        { correct := true, score := 1, feedback := "Correct! Well done." }
      else if containsSub (pyLower (pyStrip u)) (pyLower (pyStrip c)) ||
          containsSub (pyLower (pyStrip c)) (pyLower (pyStrip u)) then
        { correct := false, score := 1/2
          feedback := "Close, but not exact. The correct answer is \x27" ++
            c ++ "\x27." }
      else
        { correct := false, score := 0
          feedback := "The correct answer is \x27" ++ c ++
            "\x27. Keep practicing!" }) ∧
    validate_unit_completion u c (Except.error ()) =
      (if pyLower (pyStrip u) == pyLower (pyStrip c) then
        { correct := true, score := 1, feedback := "Correct! Well done." }
      else if containsSub (pyLower (pyStrip u)) (pyLower (pyStrip c)) ||
          containsSub (pyLower (pyStrip c)) (pyLower (pyStrip u)) then
        { correct := false, score := 1/2
          feedback := "Close, but not exact. The correct answer is \x27" ++
            c ++ "\x27." }
      else
        { correct := false, score := 0
          feedback := "The correct answer is \x27" ++ c ++
            "\x27. Keep practicing!" }) ∧
    validate_image_detection u c (Except.error ()) =
      (if pyLower (pyStrip u) == pyLower (pyStrip c) then
        { correct := true, score := 1, feedback := "Correct! Well done." }
      else
        { correct := false, score := 0
          feedback := "The correct answer is \x27" ++ c ++
            "\x27. Keep practicing!" }) ∧
    (validate_reading (Except.ok pr)).isOk = true :=
  ⟨rfl, rfl, rfl, rfl⟩

/-- Claim C10: within one orchestrator turn, the final-reply phase issues at
most one additional completion call triggered by tool-call results (exactly
one when the first response requested tools), and only the first response's
tool calls are ever executed — the second response's tool-call requests
never touch the profile. -/
theorem claim_C10_tool_round_trip (p : Profile) (r1 r2 : LlmResponse) :
    (tutor_reply_phase p r1 r2).completionCalls ≤ 2 ∧
    (tutor_reply_phase p r1 r2).completionCalls =
      (if r1.toolCalls.isEmpty then 1 else 2) ∧
    (tutor_reply_phase p r1 r2).finalProfile = execToolCalls p r1.toolCalls := by
  unfold tutor_reply_phase
  split_ifs with h
  · refine ⟨by norm_num, rfl, ?_⟩
    rw [List.isEmpty_iff.mp h]
    rfl
  · exact ⟨by norm_num, rfl, rfl⟩

end HootieChat
